import Mathlib

/-!
Shallow embedding of the sentinel-mesh collection-and-streaming core
(src/internal/services/collector.go and src/pkg/metrics/metrics.go),
together with theorems settling the specification claims.

Modelling conventions:
* time.Time values are modelled as integers (abstract ticks; Unix
  seconds where an absolute unit matters, e.g. the 5-minute constant);
  t1.After(t2) is t2 < t1.
* float64 metric values are modelled as rationals: every value produced
  by the collectors is an exact integer or an integer divided by 1000.
* Go maps used as label sets are modelled as association lists in
  insertion order.
* The uuid.New() call in generateEventID is modelled by threading the
  freshly generated identifier as an explicit argument.
-/

namespace SentinelMesh

/-- Metric type enum (models.MetricTypeGauge / models.MetricTypeCounter). -/
inductive MetricType where
  | gauge
  | counter
deriving DecidableEq, Repr

/-- The normalized Metric record (internal/models, as constructed in
collector.go composite literals: Name, Value, Labels, Timestamp, Source, Type). -/
structure Metric where
  name : String
  value : ℚ
  labels : List (String × String)
  timestamp : ℤ
  source : String
  type : MetricType
deriving DecidableEq, Repr

/-- Event severity enum (models.EventSeverityInfo / Warning / Error / Critical). -/
inductive EventSeverity where
  | info
  | warning
  | error
  | critical
deriving DecidableEq, Repr

/-- The involved-object part of an Event (models.EventObject). -/
structure EventObject where
  kind : String
  name : String
  namespc : String
  uid : String
deriving DecidableEq, Repr

/-- The normalized Event record (internal/models, as constructed in
convertKubernetesEvent). -/
structure Event where
  id : String
  type : String
  reason : String
  message : String
  source : String
  timestamp : ℤ
  severity : EventSeverity
  object : EventObject
  labels : List (String × String)
deriving DecidableEq, Repr

/-- A Kubernetes corev1.Event, restricted to the fields collector.go reads. -/
structure KubeEvent where
  namespc : String
  type : String
  reason : String
  message : String
  sourceComponent : String
  sourceHost : String
  involvedKind : String
  involvedName : String
  involvedNamespace : String
  involvedUID : String
  involvedResourceVersion : String
  involvedFieldPath : String
  count : ℤ
  firstTimestampUnix : ℤ
  lastTimestamp : ℤ
deriving DecidableEq, Repr

/-- determineSeverity (collector.go): severity from event type and reason.
corev1.EventTypeWarning is the string Warning, corev1.EventTypeNormal is Normal. -/
def determineSeverity (kubeEvent : KubeEvent) : EventSeverity :=
  if kubeEvent.type = "Warning" then
    if kubeEvent.reason = "Failed" ∨ kubeEvent.reason = "FailedScheduling" ∨
       kubeEvent.reason = "FailedMount" ∨ kubeEvent.reason = "FailedAttachVolume" ∨
       kubeEvent.reason = "FailedDetachVolume" ∨ kubeEvent.reason = "FailedCreate" ∨
       kubeEvent.reason = "FailedDelete" ∨ kubeEvent.reason = "Unhealthy" ∨
       kubeEvent.reason = "BackOff" ∨ kubeEvent.reason = "Evicted" ∨
       kubeEvent.reason = "Preempting" ∨ kubeEvent.reason = "OutOfDisk" ∨
       kubeEvent.reason = "FreeDiskSpaceFailed" then
      EventSeverity.error
    else if kubeEvent.reason = "Killing" ∨ kubeEvent.reason = "NetworkNotReady" ∨
            kubeEvent.reason = "NodeNotReady" ∨ kubeEvent.reason = "Rebooted" ∨
            kubeEvent.reason = "NodeAllocatableEnforced" ∨ kubeEvent.reason = "SystemOOM" ∨
            kubeEvent.reason = "ContainerGCFailed" then
      EventSeverity.critical
    else
      EventSeverity.warning
  else if kubeEvent.type = "Normal" then
    -- the Go switch has three arms here, but every arm returns Info
    EventSeverity.info
  else
    EventSeverity.info

/-- The hyphen-joined composite ID built by generateEventID before the
length check: namespace-name-reason-UID-firstSeenUnix. -/
def eventBaseID (kubeEvent : KubeEvent) : String :=
  kubeEvent.namespc ++ "-" ++ kubeEvent.involvedName ++ "-" ++ kubeEvent.reason ++
    "-" ++ kubeEvent.involvedUID ++ "-" ++ toString kubeEvent.firstTimestampUnix

/-- generateEventID (collector.go): the composite ID, unless its byte
length exceeds 100, in which case the freshly generated uuid is used. -/
def generateEventID (kubeEvent : KubeEvent) (uuid : String) : String :=
  let baseID := eventBaseID kubeEvent
  if baseID.utf8ByteSize > 100 then uuid else baseID

/-- convertKubernetesEvent (collector.go): corev1.Event → models.Event. -/
def convertKubernetesEvent (uuid : String) (kubeEvent : KubeEvent) : Event :=
  let baseLabels : List (String × String) :=
    [("namespace", kubeEvent.namespc),
     ("component", kubeEvent.sourceComponent),
     ("host", kubeEvent.sourceHost),
     ("kind", kubeEvent.involvedKind),
     ("name", kubeEvent.involvedName),
     ("reason", kubeEvent.reason),
     ("type", kubeEvent.type)]
  let labels1 :=
    if kubeEvent.involvedResourceVersion ≠ "" then
      baseLabels ++ [("resource_version", kubeEvent.involvedResourceVersion)]
    else baseLabels
  let labels2 :=
    if kubeEvent.involvedFieldPath ≠ "" then
      labels1 ++ [("field_path", kubeEvent.involvedFieldPath)]
    else labels1
  let labels3 :=
    if kubeEvent.count > 0 then
      labels2 ++ [("count", toString kubeEvent.count)]
    else labels2
  { id := generateEventID kubeEvent uuid
    type := kubeEvent.type
    reason := kubeEvent.reason
    message := kubeEvent.message
    source := kubeEvent.sourceComponent ++ "/" ++ kubeEvent.sourceHost
    timestamp := kubeEvent.lastTimestamp
    severity := determineSeverity kubeEvent
    object :=
      { kind := kubeEvent.involvedKind
        name := kubeEvent.involvedName
        namespc := kubeEvent.involvedNamespace
        uid := kubeEvent.involvedUID }
    labels := labels3 }

/-- The fatal-resource reason set of the severity table. -/
def fatalResourceReasons : List String :=
  ["Failed", "FailedScheduling", "FailedMount", "FailedAttachVolume",
   "FailedDetachVolume", "FailedCreate", "FailedDelete", "Unhealthy",
   "BackOff", "Evicted", "Preempting", "OutOfDisk", "FreeDiskSpaceFailed"]

/-- The systemic reason set of the severity table. -/
def systemicReasons : List String :=
  ["Killing", "NetworkNotReady", "NodeNotReady", "Rebooted",
   "NodeAllocatableEnforced", "SystemOOM", "ContainerGCFailed"]

end SentinelMesh

namespace SentinelMesh

/-- C5: severity classification — Warning-type events with a
fatal-resource reason are Error, Warning-type events with a systemic
reason are Critical, all other Warning-type events are Warning, and all
Normal-type events are Info regardless of reason. -/
theorem c5_determineSeverity_table (e : KubeEvent) :
    (e.type = "Warning" → e.reason ∈ fatalResourceReasons →
        determineSeverity e = EventSeverity.error) ∧
    (e.type = "Warning" → e.reason ∈ systemicReasons →
        determineSeverity e = EventSeverity.critical) ∧
    (e.type = "Warning" → e.reason ∉ fatalResourceReasons →
        e.reason ∉ systemicReasons → determineSeverity e = EventSeverity.warning) ∧
    (e.type = "Normal" → determineSeverity e = EventSeverity.info) := by
  refine ⟨?_, ?_, ?_, ?_⟩
  · intro ht hr
    simp only [fatalResourceReasons, List.mem_cons, List.not_mem_nil, or_false] at hr
    rcases hr with h | h | h | h | h | h | h | h | h | h | h | h | h <;>
      simp [determineSeverity, ht, h]
  · intro ht hr
    simp only [systemicReasons, List.mem_cons, List.not_mem_nil, or_false] at hr
    rcases hr with h | h | h | h | h | h | h <;>
      simp [determineSeverity, ht, h]
  · intro ht hrf hrs
    simp only [fatalResourceReasons, List.mem_cons, List.not_mem_nil, or_false] at hrf
    simp only [systemicReasons, List.mem_cons, List.not_mem_nil, or_false] at hrs
    push_neg at hrf hrs
    obtain ⟨f1, f2, f3, f4, f5, f6, f7, f8, f9, f10, f11, f12, f13⟩ := hrf
    obtain ⟨s1, s2, s3, s4, s5, s6, s7⟩ := hrs
    simp [determineSeverity, ht, f1, f2, f3, f4, f5, f6, f7, f8, f9, f10,
      f11, f12, f13, s1, s2, s3, s4, s5, s6, s7]
  · intro ht
    by_cases hw : e.type = "Warning"
    · rw [ht] at hw; exact absurd hw (by decide)
    · simp [determineSeverity, hw, ht]

/-- Witness for C5 at a concrete event: a Warning BackOff event
classifies as Error. -/
theorem c5_determineSeverity_table_witness :
    let e : KubeEvent :=
      { namespc := "default", type := "Warning", reason := "BackOff",
        message := "", sourceComponent := "kubelet", sourceHost := "n1",
        involvedKind := "Pod", involvedName := "p", involvedNamespace := "default",
        involvedUID := "u", involvedResourceVersion := "", involvedFieldPath := "",
        count := 1, firstTimestampUnix := 0, lastTimestamp := 0 }
    e.type = "Warning" ∧ e.reason ∈ fatalResourceReasons ∧
      determineSeverity e = EventSeverity.error := by
  intro e
  refine ⟨rfl, by decide, ?_⟩
  exact (c5_determineSeverity_table e).1 rfl (by decide)

end SentinelMesh

namespace SentinelMesh

/-- The range loop of EventCollector.Collect: wm is ec.lastTimestamp as
read at the start of the call, newLast the running newLastTimestamp. -/
def collectEventsAux (uuid : String) (wm : ℤ) :
    List KubeEvent → ℤ → List Event × ℤ
  | [], newLast => ([], newLast)
  | e :: rest, newLast =>
    if wm < e.lastTimestamp then
      let newLast1 := if newLast < e.lastTimestamp then e.lastTimestamp else newLast
      let r := collectEventsAux uuid wm rest newLast1
      (convertKubernetesEvent uuid e :: r.1, r.2)
    else
      collectEventsAux uuid wm rest newLast

/-- EventCollector.Collect (collector.go): filter the listed cluster
events to those strictly after the watermark, convert them, and return
the emitted Events together with the updated lastTimestamp. -/
def EventCollector.Collect (uuid : String) (wm : ℤ) (items : List KubeEvent) :
    List Event × ℤ :=
  collectEventsAux uuid wm items wm

/-- EventCollector.SetLastTimestamp: overwrite the watermark with the
given timestamp, unconditionally. -/
def EventCollector.SetLastTimestamp (_lastTimestamp t : ℤ) : ℤ := t

/-- EventCollector.Reset: overwrite the watermark with now minus five
minutes (time modelled in Unix seconds), unconditionally. -/
def EventCollector.Reset (_lastTimestamp now : ℤ) : ℤ := now - 5 * 60

@[simp]
theorem convertKubernetesEvent_timestamp (uuid : String) (e : KubeEvent) :
    (convertKubernetesEvent uuid e).timestamp = e.lastTimestamp := rfl

theorem ite_lt_eq_max (a b : ℤ) : (if a < b then b else a) = max a b := by
  rw [max_def]; split <;> split <;> omega

theorem collectEventsAux_mem_gt (uuid : String) (wm : ℤ) (items : List KubeEvent) :
    ∀ (newLast : ℤ) (ev : Event), ev ∈ (collectEventsAux uuid wm items newLast).1 →
      wm < ev.timestamp := by
  induction items with
  | nil => intro newLast ev h; simp [collectEventsAux] at h
  | cons e rest ih =>
    intro newLast ev h
    by_cases hk : wm < e.lastTimestamp
    · simp only [collectEventsAux, if_pos hk, List.mem_cons] at h
      rcases h with h | h
      · rw [h, convertKubernetesEvent_timestamp]; exact hk
      · exact ih _ ev h
    · simp only [collectEventsAux, if_neg hk] at h
      exact ih _ ev h

theorem collectEventsAux_snd_eq_foldl (uuid : String) (wm : ℤ) (items : List KubeEvent) :
    ∀ newLast : ℤ, (collectEventsAux uuid wm items newLast).2 =
      (collectEventsAux uuid wm items newLast).1.foldl
        (fun a ev => max a ev.timestamp) newLast := by
  induction items with
  | nil => intro newLast; simp [collectEventsAux]
  | cons e rest ih =>
    intro newLast
    by_cases hk : wm < e.lastTimestamp
    · simp only [collectEventsAux, if_pos hk, List.foldl_cons,
        convertKubernetesEvent_timestamp]
      rw [ih, ite_lt_eq_max]
    · simp only [collectEventsAux, if_neg hk]
      exact ih newLast

theorem foldl_max_init_le (l : List Event) :
    ∀ init : ℤ, init ≤ l.foldl (fun a ev => max a ev.timestamp) init := by
  induction l with
  | nil => intro init; simp
  | cons e rest ih =>
    intro init
    calc init ≤ max init e.timestamp := le_max_left _ _
    _ ≤ rest.foldl (fun a ev => max a ev.timestamp) (max init e.timestamp) := ih _

theorem foldl_max_mem_le (l : List Event) :
    ∀ (init : ℤ) (ev : Event), ev ∈ l →
      ev.timestamp ≤ l.foldl (fun a ev' => max a ev'.timestamp) init := by
  induction l with
  | nil => intro init ev h; simp at h
  | cons e rest ih =>
    intro init ev h
    rcases List.mem_cons.mp h with h | h
    · rw [h]
      calc e.timestamp ≤ max init e.timestamp := le_max_right _ _
      _ ≤ rest.foldl (fun a ev' => max a ev'.timestamp) (max init e.timestamp) :=
        foldl_max_init_le rest _
    · exact ih _ ev h

theorem EventCollector.Collect_snd_eq_foldl (uuid : String) (wm : ℤ)
    (items : List KubeEvent) :
    (EventCollector.Collect uuid wm items).2 =
      (EventCollector.Collect uuid wm items).1.foldl
        (fun a ev => max a ev.timestamp) wm :=
  collectEventsAux_snd_eq_foldl uuid wm items wm

theorem EventCollector.Collect_le_snd (uuid : String) (wm : ℤ)
    (items : List KubeEvent) : wm ≤ (EventCollector.Collect uuid wm items).2 := by
  rw [EventCollector.Collect_snd_eq_foldl]
  exact foldl_max_init_le _ wm

theorem EventCollector.Collect_mem_le_snd (uuid : String) (wm : ℤ)
    (items : List KubeEvent) (ev : Event)
    (h : ev ∈ (EventCollector.Collect uuid wm items).1) :
    ev.timestamp ≤ (EventCollector.Collect uuid wm items).2 := by
  rw [EventCollector.Collect_snd_eq_foldl]
  exact foldl_max_mem_le _ wm ev h

/-- The watermark held after running Collect once per listing, in order. -/
def runWatermark (uuid : String) (wm : ℤ) (listings : List (List KubeEvent)) : ℤ :=
  listings.foldl (fun w items => (EventCollector.Collect uuid w items).2) wm

/-- The Events returned by the i-th Collect call of a pure Collect
sequence over the given listings. -/
def collectOutputAt (uuid : String) (wm : ℤ) (listings : List (List KubeEvent))
    (i : ℕ) : List Event :=
  (EventCollector.Collect uuid (runWatermark uuid wm (listings.take i))
    (listings.getD i [])).1

theorem le_runWatermark (uuid : String) (listings : List (List KubeEvent)) :
    ∀ wm : ℤ, wm ≤ runWatermark uuid wm listings := by
  induction listings with
  | nil => intro wm; simp [runWatermark]
  | cons items rest ih =>
    intro wm
    calc wm ≤ (EventCollector.Collect uuid wm items).2 :=
      EventCollector.Collect_le_snd uuid wm items
    _ ≤ runWatermark uuid ((EventCollector.Collect uuid wm items).2) rest := ih _
    _ = runWatermark uuid wm (items :: rest) := by simp [runWatermark]

theorem runWatermark_append (uuid : String) (wm : ℤ)
    (l1 l2 : List (List KubeEvent)) :
    runWatermark uuid wm (l1 ++ l2) = runWatermark uuid (runWatermark uuid wm l1) l2 := by
  simp [runWatermark, List.foldl_append]

theorem runWatermark_take_mono (uuid : String) (wm : ℤ)
    (listings : List (List KubeEvent)) (i j : ℕ) (h : i ≤ j) :
    runWatermark uuid wm (listings.take i) ≤ runWatermark uuid wm (listings.take j) := by
  obtain ⟨k, rfl⟩ : ∃ k, j = i + k := ⟨j - i, by omega⟩
  rw [List.take_add, runWatermark_append]
  exact le_runWatermark uuid _ _

theorem runWatermark_take_succ (uuid : String) (wm : ℤ)
    (listings : List (List KubeEvent)) (i : ℕ) (h : i < listings.length) :
    runWatermark uuid wm (listings.take (i + 1)) =
      (EventCollector.Collect uuid (runWatermark uuid wm (listings.take i))
        (listings.getD i [])).2 := by
  rw [List.take_succ, runWatermark_append]
  rw [List.getElem?_eq_getElem h]
  simp [runWatermark, List.getD, List.getElem?_eq_getElem h]

end SentinelMesh

namespace SentinelMesh

/-- A concrete cluster event with last-seen time 10, used to instantiate
the watermark theorems. -/
def sampleKubeEvent10 : KubeEvent :=
  { namespc := "default", type := "Normal", reason := "Started",
    message := "m", sourceComponent := "kubelet", sourceHost := "n1",
    involvedKind := "Pod", involvedName := "p", involvedNamespace := "default",
    involvedUID := "u1", involvedResourceVersion := "", involvedFieldPath := "",
    count := 1, firstTimestampUnix := 1, lastTimestamp := 10 }

/-- C1: every Event returned by a Collect call has a last-seen timestamp
strictly after the watermark held at the start of the call; at the end of
the call the watermark equals the maximum of its previous value and the
returned timestamps; the watermark never moves backward; and in any
sequence consisting only of Collect calls, an event returned by one call
is never returned again by a later call. -/
theorem c1_eventCollector_watermark (uuid : String) (wm : ℤ) :
    (∀ (items : List KubeEvent) (ev : Event),
        ev ∈ (EventCollector.Collect uuid wm items).1 → wm < ev.timestamp) ∧
    (∀ items : List KubeEvent,
        (EventCollector.Collect uuid wm items).2 =
          (EventCollector.Collect uuid wm items).1.foldl
            (fun a ev => max a ev.timestamp) wm) ∧
    (∀ items : List KubeEvent, wm ≤ (EventCollector.Collect uuid wm items).2) ∧
    (∀ (listings : List (List KubeEvent)) (i j : ℕ) (ev : Event), i < j →
        ev ∈ collectOutputAt uuid wm listings i →
        ev ∉ collectOutputAt uuid wm listings j) := by
  refine ⟨?_, ?_, ?_, ?_⟩
  · intro items ev h
    exact collectEventsAux_mem_gt uuid wm items wm ev h
  · intro items
    exact EventCollector.Collect_snd_eq_foldl uuid wm items
  · intro items
    exact EventCollector.Collect_le_snd uuid wm items
  · intro ls i j ev hij hmem hmem'
    rw [collectOutputAt] at hmem hmem'
    by_cases hi : i < ls.length
    · have h1 : ev.timestamp ≤ runWatermark uuid wm (ls.take (i + 1)) := by
        rw [runWatermark_take_succ uuid wm ls i hi]
        exact EventCollector.Collect_mem_le_snd uuid _ _ ev hmem
      have h2 : runWatermark uuid wm (ls.take (i + 1)) ≤
          runWatermark uuid wm (ls.take j) :=
        runWatermark_take_mono uuid wm ls (i + 1) j (by omega)
      have h3 : runWatermark uuid wm (ls.take j) < ev.timestamp :=
        collectEventsAux_mem_gt uuid _ _ _ ev hmem'
      omega
    · have hnil : ls.getD i [] = [] :=
        List.getD_eq_default _ _ (by omega)
      rw [hnil] at hmem
      simp [EventCollector.Collect, collectEventsAux] at hmem

/-- Witness for C1 at a concrete two-call sequence: with initial
watermark 0 and the same event (last-seen 10) listed on both calls, the
event is returned by the first call, its timestamp is after the initial
watermark, and it is not returned by the second call. -/
theorem c1_eventCollector_watermark_witness :
    let ev := convertKubernetesEvent "" sampleKubeEvent10
    (0 : ℤ) < ev.timestamp ∧
      ev ∈ collectOutputAt "" 0 [[sampleKubeEvent10], [sampleKubeEvent10]] 0 ∧
      ev ∉ collectOutputAt "" 0 [[sampleKubeEvent10], [sampleKubeEvent10]] 1 := by
  intro ev
  refine ⟨?_, by decide, ?_⟩
  · exact (c1_eventCollector_watermark "" 0).1 [sampleKubeEvent10] ev (by decide)
  · exact (c1_eventCollector_watermark "" 0).2.2.2
      [[sampleKubeEvent10], [sampleKubeEvent10]] 0 1 ev (by decide) (by decide)

/-- C10: SetLastTimestamp overwrites the watermark with exactly the given
time and Reset overwrites it with the current time minus 5 minutes, both
unconditionally — even when the new value is earlier than the current
watermark; consequently in the call sequence Collect, SetLastTimestamp
with an earlier time, Collect, the second Collect returns an event the
first Collect already returned. -/
theorem c10_set_reset_unconditional :
    (∀ wm t : ℤ, EventCollector.SetLastTimestamp wm t = t) ∧
    (∀ wm now : ℤ, EventCollector.Reset wm now = now - 5 * 60) ∧
    (let ev := convertKubernetesEvent "" sampleKubeEvent10
     let first := EventCollector.Collect "" 0 [sampleKubeEvent10]
     ev ∈ first.1 ∧
       ev ∈ (EventCollector.Collect ""
         (EventCollector.SetLastTimestamp first.2 0) [sampleKubeEvent10]).1) :=
  ⟨fun _ _ => rfl, fun _ _ => rfl, by decide⟩

end SentinelMesh

namespace SentinelMesh

/-- A concrete cluster event whose composite ID exceeds 100 bytes. -/
def sampleLongNameEvent : KubeEvent :=
  { sampleKubeEvent10 with
    involvedName := String.mk (List.replicate 120 (Char.ofNat 97)) }

/-- C7: when the composite namespace-name-reason-UID-firstSeenUnix
string is at most 100 bytes long, the generated event ID is exactly that
hyphen-joined concatenation — in particular it does not depend on the
freshly generated random identifier, so the same event always receives
the same ID; when the composite string exceeds 100 bytes, the freshly
generated random identifier is returned instead. -/
theorem c7_generateEventID_deterministic (e : KubeEvent) (uuid uuidAlt : String) :
    ((eventBaseID e).utf8ByteSize ≤ 100 →
      generateEventID e uuid = eventBaseID e ∧
      generateEventID e uuid = generateEventID e uuidAlt) ∧
    ((eventBaseID e).utf8ByteSize > 100 → generateEventID e uuid = uuid) := by
  constructor
  · intro h
    have hn : ¬ (eventBaseID e).utf8ByteSize > 100 := not_lt.mpr h
    constructor
    · simp only [generateEventID, if_neg hn]
    · simp only [generateEventID, if_neg hn]
  · intro h
    simp only [generateEventID, if_pos h]

set_option maxRecDepth 10000 in
/-- Witness for C7: a short composite ID is returned verbatim, and a
120-byte involved-object name forces the random identifier. -/
theorem c7_generateEventID_deterministic_witness :
    ((eventBaseID sampleKubeEvent10).utf8ByteSize ≤ 100 ∧
      generateEventID sampleKubeEvent10 "r1" = eventBaseID sampleKubeEvent10 ∧
      generateEventID sampleKubeEvent10 "r1" = generateEventID sampleKubeEvent10 "r2") ∧
    ((eventBaseID sampleLongNameEvent).utf8ByteSize > 100 ∧
      generateEventID sampleLongNameEvent "r1" = "r1") := by
  constructor
  · refine ⟨by decide, ?_⟩
    exact (c7_generateEventID_deterministic sampleKubeEvent10 "r1" "r2").1 (by decide)
  · refine ⟨by decide, ?_⟩
    exact (c7_generateEventID_deterministic sampleLongNameEvent "r1" "r2").2 (by decide)

end SentinelMesh

namespace SentinelMesh

/-- A node condition (corev1.NodeCondition: Type, Status, Reason). -/
structure NodeCondition where
  condType : String
  status : String
  reason : String
deriving DecidableEq, Repr

/-- A node taint (corev1.Taint: Key, Value, Effect). -/
structure NodeTaint where
  key : String
  value : String
  effect : String
deriving DecidableEq, Repr

/-- A corev1.Node restricted to the fields the NodeCollector reads.
Resource quantities are carried as integers (milli-cores for CPU, bytes
for memory/storage, a count for pods); the value 0 models a quantity for
which IsZero() holds, so a metric is emitted iff the field is nonzero,
exactly as in the source. -/
structure Node where
  name : String
  architecture : String
  os : String
  kernel : String
  runtime : String
  labels : List (String × String)
  capacityCPUMilli : ℤ
  capacityMemBytes : ℤ
  capacityStorageBytes : ℤ
  capacityPods : ℤ
  allocatableCPUMilli : ℤ
  allocatableMemBytes : ℤ
  conditions : List NodeCondition
  kubeletVersion : String
  kubeProxyVersion : String
  creationTimestamp : ℤ
  taints : List NodeTaint
deriving DecidableEq, Repr

/-- One item of the metrics-API node usage listing (v1beta1.NodeMetrics). -/
structure NodeUsage where
  name : String
  usageCPUMilli : ℤ
  usageMemBytes : ℤ
deriving DecidableEq, Repr

/-- Builds a Metric exactly as the composite literals in collector.go do
for gauges: Source is always the string kubernetes. -/
def gaugeMetric (name : String) (value : ℚ) (labels : List (String × String))
    (ts : ℤ) : Metric :=
  { name := name, value := value, labels := labels, timestamp := ts,
    source := "kubernetes", type := MetricType.gauge }

/-- The base label map built at the top of collectNodeMetrics. -/
def nodeBaseLabels (node : Node) : List (String × String) :=
  [("node", node.name), ("architecture", node.architecture), ("os", node.os),
   ("kernel", node.kernel), ("runtime", node.runtime)] ++
    node.labels.map (fun p => ("label_" ++ p.1, p.2))

/-- Node capacity metrics (CPU cores, memory bytes, storage bytes, pod
count), each emitted iff the capacity quantity is nonzero. -/
def nodeCapacityMetrics (node : Node) (ts : ℤ) : List Metric :=
  (if node.capacityCPUMilli ≠ 0 then
    [gaugeMetric "node_cpu_capacity_cores" ((node.capacityCPUMilli : ℚ) / 1000)
      (nodeBaseLabels node) ts] else []) ++
  (if node.capacityMemBytes ≠ 0 then
    [gaugeMetric "node_memory_capacity_bytes" (node.capacityMemBytes : ℚ)
      (nodeBaseLabels node) ts] else []) ++
  (if node.capacityStorageBytes ≠ 0 then
    [gaugeMetric "node_storage_capacity_bytes" (node.capacityStorageBytes : ℚ)
      (nodeBaseLabels node) ts] else []) ++
  (if node.capacityPods ≠ 0 then
    [gaugeMetric "node_pod_capacity" (node.capacityPods : ℚ)
      (nodeBaseLabels node) ts] else [])

/-- Node allocatable metrics (CPU cores and memory bytes). -/
def nodeAllocatableMetrics (node : Node) (ts : ℤ) : List Metric :=
  (if node.allocatableCPUMilli ≠ 0 then
    [gaugeMetric "node_cpu_allocatable_cores" ((node.allocatableCPUMilli : ℚ) / 1000)
      (nodeBaseLabels node) ts] else []) ++
  (if node.allocatableMemBytes ≠ 0 then
    [gaugeMetric "node_memory_allocatable_bytes" (node.allocatableMemBytes : ℚ)
      (nodeBaseLabels node) ts] else [])

/-- One node_condition metric per condition, 1 iff the status is True. -/
def nodeConditionMetrics (node : Node) (ts : ℤ) : List Metric :=
  node.conditions.map (fun c =>
    gaugeMetric "node_condition" (if c.status = "True" then 1 else 0)
      (nodeBaseLabels node ++
        [("condition", c.condType), ("status", c.status), ("reason", c.reason)]) ts)

/-- Node usage metrics: only when a usage listing is present and it holds
an item whose name matches the node (first match), CPU and memory usage
are emitted when nonzero. -/
def nodeUsageMetrics (node : Node) (nodeMetrics : Option (List NodeUsage))
    (ts : ℤ) : List Metric :=
  match nodeMetrics with
  | none => []
  | some items =>
    match items.find? (fun u => u.name == node.name) with
    | none => []
    | some u =>
      (if u.usageCPUMilli ≠ 0 then
        [gaugeMetric "node_cpu_usage_cores" ((u.usageCPUMilli : ℚ) / 1000)
          (nodeBaseLabels node) ts] else []) ++
      (if u.usageMemBytes ≠ 0 then
        [gaugeMetric "node_memory_usage_bytes" (u.usageMemBytes : ℚ)
          (nodeBaseLabels node) ts] else [])

/-- The node_info metric with version/runtime labels, always emitted. -/
def nodeInfoMetric (node : Node) (ts : ℤ) : Metric :=
  gaugeMetric "node_info" 1
    (nodeBaseLabels node ++
      [("kubelet_version", node.kubeletVersion),
       ("kube_proxy_version", node.kubeProxyVersion),
       ("container_runtime", node.runtime)]) ts

/-- The node_age_seconds metric, always emitted (time in seconds). -/
def nodeAgeMetric (node : Node) (ts : ℤ) : Metric :=
  gaugeMetric "node_age_seconds" ((ts - node.creationTimestamp : ℤ) : ℚ)
    (nodeBaseLabels node) ts

/-- One node_taint metric per taint. -/
def nodeTaintMetrics (node : Node) (ts : ℤ) : List Metric :=
  node.taints.map (fun t =>
    gaugeMetric "node_taint" 1
      (nodeBaseLabels node ++
        [("taint_key", t.key), ("taint_value", t.value),
         ("taint_effect", t.effect)]) ts)

/-- NodeCollector.collectNodeMetrics: all metrics for a single node, in
source order — capacity, allocatable, conditions, usage (if available),
info, age, taints. -/
def NodeCollector.collectNodeMetrics (node : Node)
    (nodeMetrics : Option (List NodeUsage)) (ts : ℤ) : List Metric :=
  nodeCapacityMetrics node ts ++ nodeAllocatableMetrics node ts ++
    nodeConditionMetrics node ts ++ nodeUsageMetrics node nodeMetrics ts ++
    [nodeInfoMetric node ts] ++ [nodeAgeMetric node ts] ++ nodeTaintMetrics node ts

/-- NodeCollector.Collect: fail only if the node listing fails; a failed
usage listing is degraded to the absence of usage data. -/
def NodeCollector.Collect (nodes : Except String (List Node))
    (usage : Except String (List NodeUsage)) (ts : ℤ) :
    Except String (List Metric) :=
  match nodes with
  | Except.error e => Except.error ("failed to list nodes: " ++ e)
  | Except.ok nodeList =>
    let nodeMetrics : Option (List NodeUsage) :=
      match usage with
      | Except.ok items => some items
      | Except.error _ => none
    Except.ok (nodeList.flatMap
      (fun n => NodeCollector.collectNodeMetrics n nodeMetrics ts))

theorem mem_nodeCapacityMetrics_name (node : Node) (ts : ℤ) (m : Metric)
    (h : m ∈ nodeCapacityMetrics node ts) :
    m.name = "node_cpu_capacity_cores" ∨ m.name = "node_memory_capacity_bytes" ∨
      m.name = "node_storage_capacity_bytes" ∨ m.name = "node_pod_capacity" := by
  simp only [nodeCapacityMetrics, List.mem_append] at h
  rcases h with ((h | h) | h) | h <;> split_ifs at h <;> simp_all [gaugeMetric]

theorem mem_nodeAllocatableMetrics_name (node : Node) (ts : ℤ) (m : Metric)
    (h : m ∈ nodeAllocatableMetrics node ts) :
    m.name = "node_cpu_allocatable_cores" ∨ m.name = "node_memory_allocatable_bytes" := by
  simp only [nodeAllocatableMetrics, List.mem_append] at h
  rcases h with h | h <;> split_ifs at h <;> simp_all [gaugeMetric]

theorem mem_nodeConditionMetrics_name (node : Node) (ts : ℤ) (m : Metric)
    (h : m ∈ nodeConditionMetrics node ts) : m.name = "node_condition" := by
  simp only [nodeConditionMetrics, List.mem_map] at h
  obtain ⟨c, _, hc⟩ := h
  simp [← hc, gaugeMetric]

theorem mem_nodeTaintMetrics_name (node : Node) (ts : ℤ) (m : Metric)
    (h : m ∈ nodeTaintMetrics node ts) : m.name = "node_taint" := by
  simp only [nodeTaintMetrics, List.mem_map] at h
  obtain ⟨t, _, ht⟩ := h
  simp [← ht, gaugeMetric]

theorem mem_nodeUsageMetrics_name (node : Node)
    (nodeMetrics : Option (List NodeUsage)) (ts : ℤ) (m : Metric)
    (h : m ∈ nodeUsageMetrics node nodeMetrics ts) :
    m.name = "node_cpu_usage_cores" ∨ m.name = "node_memory_usage_bytes" := by
  rcases nodeMetrics with _ | items
  · simp [nodeUsageMetrics] at h
  · simp only [nodeUsageMetrics] at h
    rcases hf : items.find? (fun u => u.name == node.name) with _ | u <;> rw [hf] at h
    · simp at h
    · simp only [List.mem_append] at h
      rcases h with h | h <;> split_ifs at h <;> simp_all [gaugeMetric]

theorem mem_collectNodeMetrics_none_name (node : Node) (ts : ℤ) (m : Metric)
    (h : m ∈ NodeCollector.collectNodeMetrics node none ts) :
    m.name ∈ ["node_cpu_capacity_cores", "node_memory_capacity_bytes",
      "node_storage_capacity_bytes", "node_pod_capacity",
      "node_cpu_allocatable_cores", "node_memory_allocatable_bytes",
      "node_condition", "node_info", "node_age_seconds", "node_taint"] := by
  simp only [NodeCollector.collectNodeMetrics, List.mem_append] at h
  rcases h with (((((h | h) | h) | h) | h) | h) | h
  · rcases mem_nodeCapacityMetrics_name node ts m h with h' | h' | h' | h' <;> simp [h']
  · rcases mem_nodeAllocatableMetrics_name node ts m h with h' | h' <;> simp [h']
  · simp [mem_nodeConditionMetrics_name node ts m h]
  · simp [nodeUsageMetrics] at h
  · simp only [List.mem_singleton] at h
    simp [h, nodeInfoMetric, gaugeMetric]
  · simp only [List.mem_singleton] at h
    simp [h, nodeAgeMetric, gaugeMetric]
  · simp [mem_nodeTaintMetrics_name node ts m h]

end SentinelMesh

namespace SentinelMesh

/-- C4: when the node listing succeeds but the metrics-API usage listing
fails, Collect returns no error; every node still yields its capacity,
allocatable, condition, info, age and taint metrics; no usage-named
metric is emitted for any node; and the output per node is exactly the
output with usage data present minus the usage metrics — nothing is
substituted in their place. -/
theorem c4_nodeCollector_usage_failure (nodes : List Node) (usageErr : String)
    (ts : ℤ) :
    (NodeCollector.Collect (Except.ok nodes) (Except.error usageErr) ts =
      Except.ok (nodes.flatMap (fun n => NodeCollector.collectNodeMetrics n none ts))) ∧
    (∀ n : Node, NodeCollector.collectNodeMetrics n none ts =
        nodeCapacityMetrics n ts ++ nodeAllocatableMetrics n ts ++
          nodeConditionMetrics n ts ++ [nodeInfoMetric n ts] ++ [nodeAgeMetric n ts] ++
          nodeTaintMetrics n ts) ∧
    (∀ n ∈ nodes,
        nodeInfoMetric n ts ∈
          nodes.flatMap (fun n' => NodeCollector.collectNodeMetrics n' none ts) ∧
        nodeAgeMetric n ts ∈
          nodes.flatMap (fun n' => NodeCollector.collectNodeMetrics n' none ts)) ∧
    (∀ m ∈ nodes.flatMap (fun n => NodeCollector.collectNodeMetrics n none ts),
        m.name ≠ "node_cpu_usage_cores" ∧ m.name ≠ "node_memory_usage_bytes") ∧
    (∀ (n : Node) (usage : List NodeUsage),
        NodeCollector.collectNodeMetrics n none ts =
          (NodeCollector.collectNodeMetrics n (some usage) ts).filter
            (fun m => !(m.name == "node_cpu_usage_cores" ||
                        m.name == "node_memory_usage_bytes"))) := by
  refine ⟨rfl, ?_, ?_, ?_, ?_⟩
  · intro n
    simp [NodeCollector.collectNodeMetrics, nodeUsageMetrics]
  · intro n hn
    constructor
    · exact List.mem_flatMap.2 ⟨n, hn, by simp [NodeCollector.collectNodeMetrics]⟩
    · exact List.mem_flatMap.2 ⟨n, hn, by simp [NodeCollector.collectNodeMetrics]⟩
  · intro m hm
    obtain ⟨n, _, hmn⟩ := List.mem_flatMap.1 hm
    have h := mem_collectNodeMetrics_none_name n ts m hmn
    simp only [List.mem_cons, List.not_mem_nil, or_false] at h
    rcases h with h | h | h | h | h | h | h | h | h | h <;> simp [h]
  · intro n usage
    have hcap : (nodeCapacityMetrics n ts).filter
        (fun m => !(m.name == "node_cpu_usage_cores" ||
          m.name == "node_memory_usage_bytes")) = nodeCapacityMetrics n ts :=
      List.filter_eq_self.mpr (fun a ha => by
        rcases mem_nodeCapacityMetrics_name n ts a ha with h | h | h | h <;> simp [h])
    have halloc : (nodeAllocatableMetrics n ts).filter
        (fun m => !(m.name == "node_cpu_usage_cores" ||
          m.name == "node_memory_usage_bytes")) = nodeAllocatableMetrics n ts :=
      List.filter_eq_self.mpr (fun a ha => by
        rcases mem_nodeAllocatableMetrics_name n ts a ha with h | h <;> simp [h])
    have hcond : (nodeConditionMetrics n ts).filter
        (fun m => !(m.name == "node_cpu_usage_cores" ||
          m.name == "node_memory_usage_bytes")) = nodeConditionMetrics n ts :=
      List.filter_eq_self.mpr (fun a ha => by
        simp [mem_nodeConditionMetrics_name n ts a ha])
    have htaint : (nodeTaintMetrics n ts).filter
        (fun m => !(m.name == "node_cpu_usage_cores" ||
          m.name == "node_memory_usage_bytes")) = nodeTaintMetrics n ts :=
      List.filter_eq_self.mpr (fun a ha => by
        simp [mem_nodeTaintMetrics_name n ts a ha])
    have husage : (nodeUsageMetrics n (some usage) ts).filter
        (fun m => !(m.name == "node_cpu_usage_cores" ||
          m.name == "node_memory_usage_bytes")) = [] :=
      List.filter_eq_nil_iff.mpr (fun a ha => by
        rcases mem_nodeUsageMetrics_name n (some usage) ts a ha with h | h <;> simp [h])
    simp only [NodeCollector.collectNodeMetrics, List.filter_append, hcap, halloc,
      hcond, htaint, husage]
    simp [nodeUsageMetrics, nodeInfoMetric, nodeAgeMetric, gaugeMetric]

/-- A concrete Ready node with 4000m CPU capacity and 8Gi memory. -/
def sampleNode : Node :=
  { name := "n1", architecture := "amd64", os := "linux", kernel := "6.1",
    runtime := "containerd://1.7", labels := [],
    capacityCPUMilli := 4000, capacityMemBytes := 8589934592,
    capacityStorageBytes := 0, capacityPods := 110,
    allocatableCPUMilli := 3800, allocatableMemBytes := 8000000000,
    conditions := [{ condType := "Ready", status := "True", reason := "KubeletReady" }],
    kubeletVersion := "v1.29.0", kubeProxyVersion := "v1.29.0",
    creationTimestamp := 0, taints := [] }

/-- Witness for C4: one Ready node, metrics API unavailable — the call
succeeds, the info metric is still emitted, and its name is not a usage
metric name. -/
theorem c4_nodeCollector_usage_failure_witness :
    (NodeCollector.Collect (Except.ok [sampleNode]) (Except.error "metrics API unavailable") 100 =
      Except.ok ([sampleNode].flatMap
        (fun n => NodeCollector.collectNodeMetrics n none 100))) ∧
    (sampleNode ∈ [sampleNode] ∧
      nodeInfoMetric sampleNode 100 ∈
        [sampleNode].flatMap (fun n => NodeCollector.collectNodeMetrics n none 100)) ∧
    ((nodeInfoMetric sampleNode 100).name ≠ "node_cpu_usage_cores" ∧
      (nodeInfoMetric sampleNode 100).name ≠ "node_memory_usage_bytes") := by
  refine ⟨(c4_nodeCollector_usage_failure [sampleNode] "metrics API unavailable" 100).1,
    ⟨by decide, ?_⟩, ?_⟩
  · exact ((c4_nodeCollector_usage_failure [sampleNode] "metrics API unavailable" 100).2.2.1
      sampleNode (by decide)).1
  · exact (c4_nodeCollector_usage_failure [sampleNode] "metrics API unavailable" 100).2.2.2.1
      (nodeInfoMetric sampleNode 100) (by decide)

end SentinelMesh

namespace SentinelMesh

/-- A container spec (corev1.Container: name, image, resource
requests/limits; 0 models a quantity for which IsZero() holds). -/
structure PodContainer where
  name : String
  image : String
  requestCPUMilli : ℤ
  requestMemBytes : ℤ
  limitCPUMilli : ℤ
  limitMemBytes : ℤ
deriving DecidableEq, Repr

/-- Which of the three container state pointers is non-nil (other models
all three nil). -/
inductive ContainerStateKind where
  | running
  | waiting
  | terminated
  | other
deriving DecidableEq, Repr

/-- A corev1.ContainerStatus restricted to the fields read. -/
structure ContainerStatus where
  name : String
  image : String
  imageID : String
  ready : Bool
  restartCount : ℤ
  state : ContainerStateKind
deriving DecidableEq, Repr

/-- A pod condition (corev1.PodCondition: Type, Status, Reason). -/
structure PodCondition where
  condType : String
  status : String
  reason : String
deriving DecidableEq, Repr

/-- A corev1.Pod restricted to the fields the PodCollector reads. -/
structure Pod where
  name : String
  namespc : String
  nodeName : String
  phase : String
  labels : List (String × String)
  ownerRefs : List (String × String)
  containers : List PodContainer
  containerStatuses : List ContainerStatus
  conditions : List PodCondition
  creationTimestamp : ℤ
deriving DecidableEq, Repr

/-- Per-container usage in one pod metrics item. -/
structure ContainerUsage where
  name : String
  usageCPUMilli : ℤ
  usageMemBytes : ℤ
deriving DecidableEq, Repr

/-- One item of the metrics-API pod usage listing (v1beta1.PodMetrics). -/
structure PodUsage where
  name : String
  namespc : String
  containers : List ContainerUsage
deriving DecidableEq, Repr

/-- Builds a Counter Metric as the restart-count composite literal does. -/
def counterMetric (name : String) (value : ℚ) (labels : List (String × String))
    (ts : ℤ) : Metric :=
  { name := name, value := value, labels := labels, timestamp := ts,
    source := "kubernetes", type := MetricType.counter }

/-- The base label map built at the top of collectPodMetrics: identity
labels, the pod's own labels prefixed with label_, then the first owner
reference if any. -/
def podBaseLabels (pod : Pod) : List (String × String) :=
  [("pod", pod.name), ("namespace", pod.namespc), ("node", pod.nodeName),
   ("phase", pod.phase)] ++
    pod.labels.map (fun p => ("label_" ++ p.1, p.2)) ++
    (match pod.ownerRefs with
     | [] => []
     | o :: _ => [("owner_kind", o.1), ("owner_name", o.2)])

/-- The ordinal phase mapping of the switch in collectPodMetrics. -/
def podPhaseValue (phase : String) : ℚ :=
  if phase = "Running" then 1
  else if phase = "Pending" then 2
  else if phase = "Succeeded" then 3
  else if phase = "Failed" then 4
  else if phase = "Unknown" then 5
  else 0

/-- The pod_phase metric, emitted once per pod. -/
def podPhaseMetric (pod : Pod) (ts : ℤ) : Metric :=
  gaugeMetric "pod_phase" (podPhaseValue pod.phase) (podBaseLabels pod) ts

/-- The pod_ready metric: 1 iff the first Ready condition has status True. -/
def podReadyMetric (pod : Pod) (ts : ℤ) : Metric :=
  gaugeMetric "pod_ready"
    (match pod.conditions.find? (fun c => c.condType == "Ready") with
     | some c => if c.status = "True" then 1 else 0
     | none => 0)
    (podBaseLabels pod) ts

/-- Per-container request/limit metrics, each emitted iff nonzero. -/
def containerSpecMetrics (pod : Pod) (ts : ℤ) : List Metric :=
  pod.containers.flatMap (fun c =>
    let cl := podBaseLabels pod ++ [("container", c.name), ("image", c.image)]
    (if c.requestCPUMilli ≠ 0 then
      [gaugeMetric "container_cpu_request_cores" ((c.requestCPUMilli : ℚ) / 1000) cl ts]
     else []) ++
    (if c.requestMemBytes ≠ 0 then
      [gaugeMetric "container_memory_request_bytes" (c.requestMemBytes : ℚ) cl ts]
     else []) ++
    (if c.limitCPUMilli ≠ 0 then
      [gaugeMetric "container_cpu_limit_cores" ((c.limitCPUMilli : ℚ) / 1000) cl ts]
     else []) ++
    (if c.limitMemBytes ≠ 0 then
      [gaugeMetric "container_memory_limit_bytes" (c.limitMemBytes : ℚ) cl ts]
     else []))

/-- Per-container-status ready/restart-count/state metrics. -/
def containerStatusMetrics (pod : Pod) (ts : ℤ) : List Metric :=
  pod.containerStatuses.flatMap (fun s =>
    let cl := podBaseLabels pod ++
      [("container", s.name), ("image", s.image), ("image_id", s.imageID)]
    [gaugeMetric "container_ready" (if s.ready then 1 else 0) cl ts,
     counterMetric "container_restart_count" (s.restartCount : ℚ) cl ts,
     gaugeMetric "container_state"
       (match s.state with
        | ContainerStateKind.running => 1
        | ContainerStateKind.waiting => 2
        | ContainerStateKind.terminated => 3
        | ContainerStateKind.other => 0) cl ts])

/-- Pod and per-container usage metrics, emitted only when the usage
listing is present and holds a matching item (first name+namespace
match). -/
def podUsageMetrics (pod : Pod) (podMetrics : Option (List PodUsage))
    (ts : ℤ) : List Metric :=
  match podMetrics with
  | none => []
  | some items =>
    match items.find? (fun pm => pm.name == pod.name && pm.namespc == pod.namespc) with
    | none => []
    | some pm =>
      let totalCPU := pm.containers.foldl
        (fun a c => if c.usageCPUMilli ≠ 0 then a + c.usageCPUMilli else a) (0 : ℤ)
      let totalMem := pm.containers.foldl
        (fun a c => if c.usageMemBytes ≠ 0 then a + c.usageMemBytes else a) (0 : ℤ)
      (if totalCPU > 0 then
        [gaugeMetric "pod_cpu_usage_cores" ((totalCPU : ℚ) / 1000) (podBaseLabels pod) ts]
       else []) ++
      (if totalMem > 0 then
        [gaugeMetric "pod_memory_usage_bytes" (totalMem : ℚ) (podBaseLabels pod) ts]
       else []) ++
      pm.containers.flatMap (fun c =>
        let cl := podBaseLabels pod ++ [("container", c.name)]
        (if c.usageCPUMilli ≠ 0 then
          [gaugeMetric "container_cpu_usage_cores" ((c.usageCPUMilli : ℚ) / 1000) cl ts]
         else []) ++
        (if c.usageMemBytes ≠ 0 then
          [gaugeMetric "container_memory_usage_bytes" (c.usageMemBytes : ℚ) cl ts]
         else []))

/-- The pod_age_seconds metric, always emitted (time in seconds). -/
def podAgeMetric (pod : Pod) (ts : ℤ) : Metric :=
  gaugeMetric "pod_age_seconds" ((ts - pod.creationTimestamp : ℤ) : ℚ)
    (podBaseLabels pod) ts

/-- One pod_condition metric per condition, 1 iff the status is True. -/
def podConditionMetrics (pod : Pod) (ts : ℤ) : List Metric :=
  pod.conditions.map (fun c =>
    gaugeMetric "pod_condition" (if c.status = "True" then 1 else 0)
      (podBaseLabels pod ++
        [("condition", c.condType), ("status", c.status), ("reason", c.reason)]) ts)

/-- PodCollector.collectPodMetrics: all metrics for a single pod, in
source order — phase, ready, container specs, container statuses, usage
(if available), age, conditions. -/
def PodCollector.collectPodMetrics (pod : Pod)
    (podMetrics : Option (List PodUsage)) (ts : ℤ) : List Metric :=
  [podPhaseMetric pod ts] ++ [podReadyMetric pod ts] ++
    containerSpecMetrics pod ts ++ containerStatusMetrics pod ts ++
    podUsageMetrics pod podMetrics ts ++ [podAgeMetric pod ts] ++
    podConditionMetrics pod ts

/-- PodCollector.Collect: fail only if the pod listing fails; a failed
usage listing is degraded to the absence of usage data. -/
def PodCollector.Collect (pods : Except String (List Pod))
    (usage : Except String (List PodUsage)) (ts : ℤ) :
    Except String (List Metric) :=
  match pods with
  | Except.error e => Except.error ("failed to list pods: " ++ e)
  | Except.ok podList =>
    let podMetrics : Option (List PodUsage) :=
      match usage with
      | Except.ok items => some items
      | Except.error _ => none
    Except.ok (podList.flatMap
      (fun p => PodCollector.collectPodMetrics p podMetrics ts))

end SentinelMesh

namespace SentinelMesh

theorem mem_containerSpecMetrics_name (pod : Pod) (ts : ℤ) (m : Metric)
    (h : m ∈ containerSpecMetrics pod ts) :
    m.name = "container_cpu_request_cores" ∨ m.name = "container_memory_request_bytes" ∨
      m.name = "container_cpu_limit_cores" ∨ m.name = "container_memory_limit_bytes" := by
  simp only [containerSpecMetrics, List.mem_flatMap] at h
  obtain ⟨c, _, h⟩ := h
  simp only [List.mem_append] at h
  rcases h with ((h | h) | h) | h <;> split_ifs at h <;> simp_all [gaugeMetric]

theorem mem_containerStatusMetrics_name (pod : Pod) (ts : ℤ) (m : Metric)
    (h : m ∈ containerStatusMetrics pod ts) :
    m.name = "container_ready" ∨ m.name = "container_restart_count" ∨
      m.name = "container_state" := by
  simp only [containerStatusMetrics, List.mem_flatMap] at h
  obtain ⟨s, _, h⟩ := h
  simp only [List.mem_cons, List.not_mem_nil, or_false] at h
  rcases h with h | h | h <;> simp_all [gaugeMetric, counterMetric]

theorem mem_podUsageMetrics_name (pod : Pod) (podMetrics : Option (List PodUsage))
    (ts : ℤ) (m : Metric) (h : m ∈ podUsageMetrics pod podMetrics ts) :
    m.name = "pod_cpu_usage_cores" ∨ m.name = "pod_memory_usage_bytes" ∨
      m.name = "container_cpu_usage_cores" ∨ m.name = "container_memory_usage_bytes" := by
  rcases podMetrics with _ | items
  · simp [podUsageMetrics] at h
  · simp only [podUsageMetrics] at h
    rcases hf : items.find? (fun pm => pm.name == pod.name && pm.namespc == pod.namespc)
      with _ | pm <;> rw [hf] at h
    · simp at h
    · simp only [List.mem_append] at h
      rcases h with (h | h) | h
      · split_ifs at h <;> simp_all [gaugeMetric]
      · split_ifs at h <;> simp_all [gaugeMetric]
      · simp only [List.mem_flatMap] at h
        obtain ⟨c, _, h⟩ := h
        simp only [List.mem_append] at h
        rcases h with h | h <;> split_ifs at h <;> simp_all [gaugeMetric]

theorem mem_podConditionMetrics_name (pod : Pod) (ts : ℤ) (m : Metric)
    (h : m ∈ podConditionMetrics pod ts) : m.name = "pod_condition" := by
  simp only [podConditionMetrics, List.mem_map] at h
  obtain ⟨c, _, hc⟩ := h
  simp [← hc, gaugeMetric]

theorem filter_phase_collectPodMetrics (pod : Pod)
    (podMetrics : Option (List PodUsage)) (ts : ℤ) :
    (PodCollector.collectPodMetrics pod podMetrics ts).filter
      (fun m => m.name == "pod_phase") = [podPhaseMetric pod ts] := by
  have hspec : (containerSpecMetrics pod ts).filter (fun m => m.name == "pod_phase") = [] :=
    List.filter_eq_nil_iff.mpr (fun a ha => by
      rcases mem_containerSpecMetrics_name pod ts a ha with h | h | h | h <;> simp [h])
  have hstat : (containerStatusMetrics pod ts).filter (fun m => m.name == "pod_phase") = [] :=
    List.filter_eq_nil_iff.mpr (fun a ha => by
      rcases mem_containerStatusMetrics_name pod ts a ha with h | h | h <;> simp [h])
  have husage : (podUsageMetrics pod podMetrics ts).filter
      (fun m => m.name == "pod_phase") = [] :=
    List.filter_eq_nil_iff.mpr (fun a ha => by
      rcases mem_podUsageMetrics_name pod podMetrics ts a ha with h | h | h | h <;> simp [h])
  have hcond : (podConditionMetrics pod ts).filter (fun m => m.name == "pod_phase") = [] :=
    List.filter_eq_nil_iff.mpr (fun a ha => by
      simp [mem_podConditionMetrics_name pod ts a ha])
  simp only [PodCollector.collectPodMetrics, List.filter_append, hspec, hstat,
    husage, hcond]
  simp [podPhaseMetric, podReadyMetric, podAgeMetric, gaugeMetric]

/-- C6: each pod contributes exactly one pod_phase Metric per Collect,
its value follows the fixed ordinal table (Running=1, Pending=2,
Succeeded=3, Failed=4, Unknown=5, anything else 0), and that value is
always an element of {0,1,2,3,4,5}. -/
theorem c6_pod_phase_ordinal (pods : List Pod)
    (usageExc : Except String (List PodUsage))
    (podMetrics : Option (List PodUsage)) (ts : ℤ) :
    (PodCollector.Collect (Except.ok pods) usageExc ts =
      Except.ok (pods.flatMap
        (fun p => PodCollector.collectPodMetrics p usageExc.toOption ts))) ∧
    (∀ pod : Pod, (PodCollector.collectPodMetrics pod podMetrics ts).filter
        (fun m => m.name == "pod_phase") = [podPhaseMetric pod ts]) ∧
    ((pods.flatMap (fun p => PodCollector.collectPodMetrics p podMetrics ts)).filter
        (fun m => m.name == "pod_phase") = pods.map (fun p => podPhaseMetric p ts)) ∧
    (∀ pod : Pod, (podPhaseMetric pod ts).value = podPhaseValue pod.phase) ∧
    (∀ ph : String,
      (ph = "Running" → podPhaseValue ph = 1) ∧
      (ph = "Pending" → podPhaseValue ph = 2) ∧
      (ph = "Succeeded" → podPhaseValue ph = 3) ∧
      (ph = "Failed" → podPhaseValue ph = 4) ∧
      (ph = "Unknown" → podPhaseValue ph = 5) ∧
      (ph ∉ ["Running", "Pending", "Succeeded", "Failed", "Unknown"] →
        podPhaseValue ph = 0)) ∧
    (∀ ph : String, podPhaseValue ph ∈ ([0, 1, 2, 3, 4, 5] : List ℚ)) := by
  refine ⟨?_, fun pod => filter_phase_collectPodMetrics pod podMetrics ts, ?_,
    fun _ => rfl, ?_, ?_⟩
  · rcases usageExc with e | items <;> rfl
  · induction pods with
    | nil => simp
    | cons p rest ih =>
      simp only [List.flatMap_cons, List.filter_append, List.map_cons, ih,
        filter_phase_collectPodMetrics p podMetrics ts]
      simp
  · intro ph
    refine ⟨fun h => by simp [podPhaseValue, h], fun h => by simp [podPhaseValue, h],
      fun h => by simp [podPhaseValue, h], fun h => by simp [podPhaseValue, h],
      fun h => by simp [podPhaseValue, h], fun h => ?_⟩
    simp only [List.mem_cons, List.not_mem_nil, or_false] at h
    push_neg at h
    obtain ⟨h1, h2, h3, h4, h5⟩ := h
    simp [podPhaseValue, h1, h2, h3, h4, h5]
  · intro ph
    unfold podPhaseValue
    split_ifs <;> simp

/-- A concrete pod in phase Pending with two containers, one restarted
three times. -/
def samplePod : Pod :=
  { name := "p1", namespc := "default", nodeName := "n1", phase := "Pending",
    labels := [("app", "web")], ownerRefs := [("ReplicaSet", "rs1")],
    containers :=
      [{ name := "c1", image := "img1", requestCPUMilli := 100,
         requestMemBytes := 1048576, limitCPUMilli := 200, limitMemBytes := 2097152 },
       { name := "c2", image := "img2", requestCPUMilli := 0,
         requestMemBytes := 0, limitCPUMilli := 0, limitMemBytes := 0 }],
    containerStatuses :=
      [{ name := "c1", image := "img1", imageID := "id1", ready := true,
         restartCount := 3, state := ContainerStateKind.running },
       { name := "c2", image := "img2", imageID := "id2", ready := false,
         restartCount := 0, state := ContainerStateKind.waiting }],
    conditions := [{ condType := "Ready", status := "False", reason := "ContainersNotReady" }],
    creationTimestamp := 0 }

/-- Witness for C6: the concrete Pending pod yields exactly one
pod_phase metric with value 2, and the ordinal table fires at Pending. -/
theorem c6_pod_phase_ordinal_witness :
    ((PodCollector.collectPodMetrics samplePod none 50).filter
        (fun m => m.name == "pod_phase") = [podPhaseMetric samplePod 50]) ∧
    ("Pending" : String) = "Pending" ∧ podPhaseValue "Pending" = 2 ∧
    podPhaseValue "Evicted" = 0 ∧
    podPhaseValue "Pending" ∈ ([0, 1, 2, 3, 4, 5] : List ℚ) := by
  refine ⟨(c6_pod_phase_ordinal [samplePod] (Except.error "x") none 50).2.1 samplePod,
    rfl, (((c6_pod_phase_ordinal [] (Except.error "x") none 0).2.2.2.2.1
      "Pending").2.1) rfl, ?_, ?_⟩
  · exact ((c6_pod_phase_ordinal [] (Except.error "x") none 0).2.2.2.2.1
      "Evicted").2.2.2.2.2 (by decide)
  · exact (c6_pod_phase_ordinal [] (Except.error "x") none 0).2.2.2.2.2 "Pending"

end SentinelMesh

namespace SentinelMesh

/-- The two Prometheus counters of pkg/metrics relevant to a collection
cycle, restricted to one (source, type) label pair:
metrics_collected_total and collection_errors_total. -/
structure RecorderState where
  metricsCollected : ℤ
  collectionErrors : ℤ
deriving DecidableEq, Repr

/-- Metrics.RecordMetricCollection (pkg/metrics/metrics.go): add the item
count to MetricsCollected and increment CollectionErrors iff a non-nil
error was passed (the duration histogram is not modelled). -/
def RecordMetricCollection (st : RecorderState) (count : ℤ)
    (err : Option String) : RecorderState :=
  { metricsCollected := st.metricsCollected + count,
    collectionErrors := st.collectionErrors + (if err.isSome then 1 else 0) }

/-- The publish loop of a collection tick: each metric is attempted in
order; a publish failure is logged and the loop continues with the next
record. Returns the successfully published records in order. -/
def publishAll (publish : Metric → Option String) : List Metric → List Metric
  | [] => []
  | m :: rest =>
    match publish m with
    | none => m :: publishAll publish rest
    | some _ => publishAll publish rest

/-- The body of one tick of Collector.collectNodeMetrics (identical in
shape for pods and events): on a collect error, record the cycle with
count 0 and the error and skip publishing; on success, publish every
record sequentially and record the cycle with the full item count and a
nil error. -/
def collectorTick (st : RecorderState) (collectResult : Except String (List Metric))
    (publish : Metric → Option String) : List Metric × RecorderState :=
  match collectResult with
  | Except.error e => ([], RecordMetricCollection st 0 (some e))
  | Except.ok ms => (publishAll publish ms, RecordMetricCollection st ms.length none)

theorem publishAll_eq_filter (publish : Metric → Option String) (ms : List Metric) :
    publishAll publish ms = ms.filter (fun m => (publish m).isNone) := by
  induction ms with
  | nil => rfl
  | cons m rest ih =>
    rcases hp : publish m with _ | e <;>
      simp [publishAll, hp, List.filter_cons, ih]

/-- Counterexample for C2 as stated: a cycle collecting five metrics in
which publishing fails for exactly one of them publishes the other four
in order, but leaves the collection error counter unchanged — it is not
incremented exactly once. -/
theorem c2_counterexample :
    let mk := fun nm => gaugeMetric nm 1 [] 0
    let ms := [mk "m1", mk "m2", mk "m3", mk "m4", mk "m5"]
    let publish : Metric → Option String :=
      fun m => if m.name == "m3" then some "broker write failed" else none
    let r := collectorTick ⟨0, 0⟩ (Except.ok ms) publish
    (ms.filter (fun m => (publish m).isSome)).length = 1 ∧
      r.1 = [mk "m1", mk "m2", mk "m4", mk "m5"] ∧
      r.2.collectionErrors = 0 ∧ ¬r.2.collectionErrors = 0 + 1 := by
  decide

/-- C2 amended: in a tick whose collection succeeded, the records that
publish successfully are published in order (the failing ones are simply
skipped), and the collection error counter is not incremented at all —
RecordMetricCollection is invoked with a nil error on that path, so the
counter only increments when the collection itself fails. -/
theorem c2_tick_publish_failures_amended (st : RecorderState) (ms : List Metric)
    (publish : Metric → Option String) :
    ((collectorTick st (Except.ok ms) publish).1 = publishAll publish ms) ∧
    (publishAll publish ms = ms.filter (fun m => (publish m).isNone)) ∧
    ((collectorTick st (Except.ok ms) publish).2.collectionErrors =
      st.collectionErrors) ∧
    ((collectorTick st (Except.ok ms) publish).2.metricsCollected =
      st.metricsCollected + ms.length) ∧
    (∀ e : String, (collectorTick st (Except.error e) publish).2.collectionErrors =
      st.collectionErrors + 1) := by
  refine ⟨rfl, publishAll_eq_filter publish ms, ?_, rfl, fun e => ?_⟩
  · simp [collectorTick, RecordMetricCollection]
  · simp [collectorTick, RecordMetricCollection]

end SentinelMesh

namespace SentinelMesh

/-- The Kubernetes part of the configuration read by the client factory. -/
structure KubernetesConfig where
  inCluster : Bool
  configPath : String
deriving DecidableEq, Repr

/-- An opaque rest.Config handle, tagged so distinct sources are
distinguishable. -/
structure RestConfig where
  tag : String
deriving DecidableEq, Repr

/-- The environment initKubernetesClients interacts with: the in-cluster
discovery result, the HOME variable, os.Stat (none means the file
exists, some e a stat error) and clientcmd.BuildConfigFromFlags. -/
structure ClientEnv where
  inClusterResult : Except String RestConfig
  homeEnv : String
  stat : String → Option String
  buildFromFile : String → Except String RestConfig

/-- The possible results of initKubernetesClients, before client
construction: which credential source was used, or which error path was
taken. -/
inductive InitOutcome where
  | usedInCluster (c : RestConfig)
  | usedFile (path : String) (c : RestConfig)
  | errBuildFile (path : String) (e : String)
  | errInClusterNoFile (inClusterErr : String)
  | errFileNotFound (path : String) (statErr : String)
  | errNoValidConfig
deriving DecidableEq, Repr

/-- Path resolution inside initKubernetesClients: the explicit config
value, else HOME (defaulting to /root when unset) joined with the
conventional location. -/
def resolveKubeconfigPath (cfg : KubernetesConfig) (homeEnv : String) : String :=
  if cfg.configPath = "" then
    (if homeEnv = "" then "/root" else homeEnv) ++ "/.kube/config"
  else cfg.configPath

/-- initKubernetesClients (collector.go), up to rest.Config resolution:
(a) when in-cluster is preferred, attempt in-cluster discovery, logging
and falling through on failure; (b) when no config was obtained, resolve
the kubeconfig path and, if the file exists, build from it (failing on a
build error); if the file is missing, fail with an error wrapping the
original in-cluster error when in-cluster was requested, else with a
file-not-found error; finally, the trailing nil-config check of the
source maps to errNoValidConfig. -/
def initKubernetesClients (cfg : KubernetesConfig) (env : ClientEnv) : InitOutcome :=
  let step1 : Option RestConfig × Option String :=
    if cfg.inCluster then
      match env.inClusterResult with
      | Except.ok c => (some c, none)
      | Except.error e => (none, some e)
    else (none, none)
  let path := resolveKubeconfigPath cfg env.homeEnv
  let afterFile : Except InitOutcome (Option RestConfig) :=
    match step1.1 with
    | some c => Except.ok (some c)
    | none =>
      match env.stat path with
      | none =>
        match env.buildFromFile path with
        | Except.ok c => Except.ok (some c)
        | Except.error e => Except.error (InitOutcome.errBuildFile path e)
      | some statErr =>
        if cfg.inCluster then
          Except.error (InitOutcome.errInClusterNoFile (step1.2.getD ""))
        else
          Except.error (InitOutcome.errFileNotFound path statErr)
  match afterFile with
  | Except.error out => out
  | Except.ok none => InitOutcome.errNoValidConfig
  | Except.ok (some c) =>
    match step1.1 with
    | some _ => InitOutcome.usedInCluster c
    | none => InitOutcome.usedFile path c

/-- A concrete environment in which in-cluster discovery fails and the
kubeconfig file does not exist. -/
def sampleEnvNoFile : ClientEnv :=
  { inClusterResult := Except.error "unable to load in-cluster configuration",
    homeEnv := "/home/dev",
    stat := fun _ => some "no such file or directory",
    buildFromFile := fun p => Except.ok ⟨p⟩ }

/-- Counterexample for C3 as stated: with in-cluster not requested and no
kubeconfig file, the factory fails with a kubeconfig-file-not-found error
naming the resolved path, not with the claimed no-valid-configuration
error (that branch is unreachable). -/
theorem c3_counterexample :
    initKubernetesClients ⟨false, ""⟩ sampleEnvNoFile =
      InitOutcome.errFileNotFound "/home/dev/.kube/config" "no such file or directory" ∧
    initKubernetesClients ⟨false, ""⟩ sampleEnvNoFile ≠ InitOutcome.errNoValidConfig := by
  decide

/-- C3 amended: the factory attempts credential sources in exactly the
claimed order — in-cluster discovery first when preferred, falling
through (not failing) on discovery failure; then the credentials file at
the explicit path, else the per-user default; building a client from the
file when it exists; failing with an error wrapping the original
in-cluster error when in-cluster was requested and no path succeeded;
but when in-cluster was not requested and the file is missing it fails
with a kubeconfig-file-not-found error naming the resolved path, and the
no-valid-configuration error branch is unreachable for every input. -/
theorem c3_client_factory_fallback_amended (cfg : KubernetesConfig) (env : ClientEnv) :
    (∀ c : RestConfig, cfg.inCluster = true → env.inClusterResult = Except.ok c →
      initKubernetesClients cfg env = InitOutcome.usedInCluster c) ∧
    (∀ (e : String) (c : RestConfig), cfg.inCluster = true →
      env.inClusterResult = Except.error e →
      env.stat (resolveKubeconfigPath cfg env.homeEnv) = none →
      env.buildFromFile (resolveKubeconfigPath cfg env.homeEnv) = Except.ok c →
      initKubernetesClients cfg env =
        InitOutcome.usedFile (resolveKubeconfigPath cfg env.homeEnv) c) ∧
    (∀ c : RestConfig, cfg.inCluster = false →
      env.stat (resolveKubeconfigPath cfg env.homeEnv) = none →
      env.buildFromFile (resolveKubeconfigPath cfg env.homeEnv) = Except.ok c →
      initKubernetesClients cfg env =
        InitOutcome.usedFile (resolveKubeconfigPath cfg env.homeEnv) c) ∧
    (∀ e : String, cfg.inCluster = false →
      env.stat (resolveKubeconfigPath cfg env.homeEnv) = none →
      env.buildFromFile (resolveKubeconfigPath cfg env.homeEnv) = Except.error e →
      initKubernetesClients cfg env =
        InitOutcome.errBuildFile (resolveKubeconfigPath cfg env.homeEnv) e) ∧
    (∀ e s : String, cfg.inCluster = true → env.inClusterResult = Except.error e →
      env.stat (resolveKubeconfigPath cfg env.homeEnv) = some s →
      initKubernetesClients cfg env = InitOutcome.errInClusterNoFile e) ∧
    (∀ s : String, cfg.inCluster = false →
      env.stat (resolveKubeconfigPath cfg env.homeEnv) = some s →
      initKubernetesClients cfg env =
        InitOutcome.errFileNotFound (resolveKubeconfigPath cfg env.homeEnv) s) ∧
    (initKubernetesClients cfg env ≠ InitOutcome.errNoValidConfig) ∧
    (cfg.configPath ≠ "" → resolveKubeconfigPath cfg env.homeEnv = cfg.configPath) ∧
    (cfg.configPath = "" → env.homeEnv ≠ "" →
      resolveKubeconfigPath cfg env.homeEnv = env.homeEnv ++ "/.kube/config") := by
  refine ⟨?_, ?_, ?_, ?_, ?_, ?_, ?_, ?_, ?_⟩
  · intro c h1 h2
    simp [initKubernetesClients, h1, h2]
  · intro e c h1 h2 h3 h4
    simp [initKubernetesClients, h1, h2, h3, h4]
  · intro c h1 h2 h3
    simp [initKubernetesClients, h1, h2, h3]
  · intro e h1 h2 h3
    simp [initKubernetesClients, h1, h2, h3]
  · intro e s h1 h2 h3
    simp [initKubernetesClients, h1, h2, h3]
  · intro s h1 h2
    simp [initKubernetesClients, h1, h2]
  · rcases h1 : cfg.inCluster with _ | _
    · rcases h2 : env.stat (resolveKubeconfigPath cfg env.homeEnv) with _ | s
      · rcases h3 : env.buildFromFile (resolveKubeconfigPath cfg env.homeEnv) with e | c
        · simp [initKubernetesClients, h1, h2, h3]
        · simp [initKubernetesClients, h1, h2, h3]
      · simp [initKubernetesClients, h1, h2]
    · rcases h4 : env.inClusterResult with e | c
      · rcases h2 : env.stat (resolveKubeconfigPath cfg env.homeEnv) with _ | s
        · rcases h3 : env.buildFromFile (resolveKubeconfigPath cfg env.homeEnv) with e' | c
          · simp [initKubernetesClients, h1, h2, h3, h4]
          · simp [initKubernetesClients, h1, h2, h3, h4]
        · simp [initKubernetesClients, h1, h2, h4]
      · simp [initKubernetesClients, h1, h4]
  · intro h
    simp [resolveKubeconfigPath, h]
  · intro h1 h2
    simp [resolveKubeconfigPath, h1, h2]

/-- Witness for the amended C3: in the concrete no-file environment with
in-cluster not requested, the factory reports file-not-found at the
resolved per-user path. -/
theorem c3_client_factory_fallback_amended_witness :
    (KubernetesConfig.mk false "").inCluster = false ∧
    sampleEnvNoFile.stat (resolveKubeconfigPath ⟨false, ""⟩ sampleEnvNoFile.homeEnv) =
      some "no such file or directory" ∧
    initKubernetesClients ⟨false, ""⟩ sampleEnvNoFile =
      InitOutcome.errFileNotFound
        (resolveKubeconfigPath ⟨false, ""⟩ sampleEnvNoFile.homeEnv)
        "no such file or directory" := by
  refine ⟨rfl, by decide, ?_⟩
  exact (c3_client_factory_fallback_amended ⟨false, ""⟩ sampleEnvNoFile).2.2.2.2.2.1
    "no such file or directory" rfl (by decide)

end SentinelMesh

namespace SentinelMesh

/-- A JSON value, the target of the wire encoding. -/
inductive Json where
  | null
  | bool (b : Bool)
  | num (q : ℚ)
  | str (s : String)
  | arr (xs : List Json)
  | obj (fields : List (String × Json))

/-- Encode a label map as a JSON object in insertion order. -/
def labelsToJson (ls : List (String × String)) : Json :=
  Json.obj (ls.map (fun p => (p.1, Json.str p.2)))

/-- Decode the fields of a JSON object into label pairs, failing on any
non-string value. -/
def jsonFieldsToLabels : List (String × Json) → Option (List (String × String))
  | [] => some []
  | (k, Json.str s) :: rest =>
    (jsonFieldsToLabels rest).map (fun tl => (k, s) :: tl)
  | _ => none

/-- Decode a JSON object back into a label map. -/
def jsonToLabels : Json → Option (List (String × String))
  | Json.obj fields => jsonFieldsToLabels fields
  | _ => none

/-- Modelled from the spec: the wire form of the Metric kind enum
(Gauge | Counter); the internal/models package carrying the JSON struct
tags is not among the sources. -/
def metricTypeToJson : MetricType → Json
  | MetricType.gauge => Json.str "gauge"
  | MetricType.counter => Json.str "counter"

/-- Decode the Metric kind enum from its wire form. -/
def jsonToMetricType : Json → Option MetricType
  | Json.str "gauge" => some MetricType.gauge
  | Json.str "counter" => some MetricType.counter
  | _ => none

/-- Modelled from the spec: the JSON wire form of a Metric record as
json.Marshal produces it before publishing; the internal/models package
with the JSON struct tags is not among the sources, so the field keys
follow the data-model section of the spec (name, value, labels,
timestamp, source, kind). -/
def metricToJson (m : Metric) : Json :=
  Json.obj [("name", Json.str m.name), ("value", Json.num m.value),
            ("labels", labelsToJson m.labels),
            ("timestamp", Json.num (m.timestamp : ℚ)),
            ("source", Json.str m.source), ("kind", metricTypeToJson m.type)]

/-- Field lookup in a JSON object (first match). -/
def jsonLookup (j : Json) (key : String) : Option Json :=
  match j with
  | Json.obj fields => (fields.find? (fun p => p.1 == key)).map Prod.snd
  | _ => none

def jsonToStringValue : Json → Option String
  | Json.str s => some s
  | _ => none

def jsonToRatValue : Json → Option ℚ
  | Json.num q => some q
  | _ => none

def jsonToIntValue : Json → Option ℤ
  | Json.num q => if q.den = 1 then some q.num else none
  | _ => none

/-- Modelled from the spec: decoding a Metric record from its JSON wire
form, the inverse direction of json.Unmarshal for the same struct tags. -/
def metricFromJson (j : Json) : Option Metric := do
  let name ← (jsonLookup j "name").bind jsonToStringValue
  let value ← (jsonLookup j "value").bind jsonToRatValue
  let labels ← (jsonLookup j "labels").bind jsonToLabels
  let timestamp ← (jsonLookup j "timestamp").bind jsonToIntValue
  let source ← (jsonLookup j "source").bind jsonToStringValue
  let kind ← (jsonLookup j "kind").bind jsonToMetricType
  pure { name := name, value := value, labels := labels,
         timestamp := timestamp, source := source, type := kind }

/-- Modelled from the spec: the wire form of the Event severity enum. -/
def severityToJson : EventSeverity → Json
  | EventSeverity.info => Json.str "info"
  | EventSeverity.warning => Json.str "warning"
  | EventSeverity.error => Json.str "error"
  | EventSeverity.critical => Json.str "critical"

/-- Modelled from the spec: the JSON wire form of an Event record; the
internal/models package with the JSON struct tags is not among the
sources. -/
def eventToJson (e : Event) : Json :=
  Json.obj [("id", Json.str e.id), ("type", Json.str e.type),
            ("reason", Json.str e.reason), ("message", Json.str e.message),
            ("source", Json.str e.source),
            ("timestamp", Json.num (e.timestamp : ℚ)),
            ("severity", severityToJson e.severity),
            ("object", Json.obj
              [("kind", Json.str e.object.kind), ("name", Json.str e.object.name),
               ("namespace", Json.str e.object.namespc),
               ("uid", Json.str e.object.uid)]),
            ("labels", labelsToJson e.labels)]

/-- A broker message as built by the send functions in collector.go. -/
structure KafkaMessage where
  topic : String
  key : String
  value : Json
  time : ℤ

/-- Collector.sendMetricToKafka: marshal the metric and publish it on the
writer configured with the metrics topic, key = metric name, message
time = the metric's own timestamp. -/
def sendMetricToKafka (topics : String → String) (m : Metric) : KafkaMessage :=
  { topic := topics "metrics", key := m.name, value := metricToJson m,
    time := m.timestamp }

/-- Collector.sendEventToKafka: marshal the event and publish it on a
writer for the logs topic, key = event type, message time = the event's
own timestamp. -/
def sendEventToKafka (topics : String → String) (e : Event) : KafkaMessage :=
  { topic := topics "logs", key := e.type, value := eventToJson e,
    time := e.timestamp }

theorem jsonToLabels_labelsToJson (ls : List (String × String)) :
    jsonToLabels (labelsToJson ls) = some ls := by
  induction ls with
  | nil => rfl
  | cons p rest ih =>
    simp only [labelsToJson, jsonToLabels, List.map_cons, jsonFieldsToLabels] at ih ⊢
    simp [ih]

theorem jsonToMetricType_metricTypeToJson (t : MetricType) :
    jsonToMetricType (metricTypeToJson t) = some t := by
  cases t <;> rfl

theorem jsonToIntValue_intCast (n : ℤ) :
    jsonToIntValue (Json.num (n : ℚ)) = some n := by
  simp [jsonToIntValue, Rat.den_intCast, Rat.num_intCast]

/-- C8: every broker message produced for a Metric goes to the metrics
topic with key equal to the metric's name, every message produced for an
Event goes to the logs topic with key equal to the event's type, and in
both cases the message time is the record's own timestamp field. -/
theorem c8_broker_message_shape (topics : String → String) (m : Metric) (e : Event) :
    ((sendMetricToKafka topics m).topic = topics "metrics" ∧
     (sendMetricToKafka topics m).key = m.name ∧
     (sendMetricToKafka topics m).value = metricToJson m ∧
     (sendMetricToKafka topics m).time = m.timestamp) ∧
    ((sendEventToKafka topics e).topic = topics "logs" ∧
     (sendEventToKafka topics e).key = e.type ∧
     (sendEventToKafka topics e).value = eventToJson e ∧
     (sendEventToKafka topics e).time = e.timestamp) :=
  ⟨⟨rfl, rfl, rfl, rfl⟩, ⟨rfl, rfl, rfl, rfl⟩⟩

/-- C9: encoding a Metric to its JSON wire form and decoding it back
yields an equal record — same name, value, label map contents,
timestamp, source, and kind. -/
theorem c9_metric_wire_roundtrip (m : Metric) :
    metricFromJson (metricToJson m) = some m := by
  simp [metricFromJson, metricToJson, jsonLookup, jsonToStringValue,
    jsonToRatValue, jsonToLabels_labelsToJson, jsonToIntValue_intCast,
    jsonToMetricType_metricTypeToJson, List.find?]

end SentinelMesh
